import Mathlib

/-!
Verification of the dual-session authentication orchestrator and route
admission controller of the airtable-integration frontend.

The definitions below are a shallow embedding of the TypeScript source:

* the route guards `authGuard`, `scrapingGuard` and `combinedGuard`
  (src/src/app/components/scraping/scraping.component.ts, appended guard
  module);
* the authentication component (`AuthenticationComponent` in
  src/src/app/components/data-view/data-view.component.ts): `loadStatus`,
  `handleOAuthCallback`, `authenticateScraping`, `clearCookies`, and the
  30-second status poller;
* the `ScrapingComponent` status loader
  (src/src/app/components/scraping/scraping.component.ts);
* the `AppComponent` OAuth callback handler (src/src/app/app.component.ts);
* the `CookieService` persistence shim
  (src/src/app/services/cookie.service.ts).

Remote calls are modelled by passing their eventual outcome (`FetchResult`)
as an explicit argument; each handler is then the pure state transformer the
corresponding subscription callbacks perform.  Navigations issued through
the router and snackbar messages are collected as explicit effect lists.
-/

/-- The OAuth session descriptor returned by `GET authStatus` and cached on
the components (`authStatus` fields).  Mirrors the fields the code reads
and the defaults it assigns. -/
structure OAuthStatus where
  authenticated : Bool
  expired : Bool
  hasToken : Bool
deriving DecidableEq

/-- The scraping session descriptor returned by `GET cookieStatus` and
cached on the components (`cookieStatus` fields). -/
structure CookieStatus where
  hasCookies : Bool
  valid : Bool
  lastValidated : Option String
deriving DecidableEq

/-- Outcome of one remote HTTP call: either a response value delivered to
the `next` callback, or a network/transport error delivered to the `error`
callback. -/
inductive FetchResult (α : Type) where
  | ok (value : α)
  | err
deriving DecidableEq

/-- One `router.navigate` call issued by a guard: the target route and the
query parameters the code attaches (`returnUrl`, `requiresScraping`). -/
structure Navigation where
  target : String
  returnUrl : Option String
  requiresScraping : Bool
deriving DecidableEq

/-- The observable result of running a guard: the boolean the guard's
observable emits (`true` = activate the route), the navigations issued
synchronously while that value is being computed, and the navigations
issued later by nested subscriptions, after the emitted value is already
fixed. -/
structure GuardRun where
  returnValue : Bool
  navsBeforeReturn : List Navigation
  navsAfterReturn : List Navigation
deriving DecidableEq

/-- `authGuard` (guard module in scraping.component.ts, lines 588-618):
fetch the OAuth status; allow when `authenticated && !expired`; otherwise
navigate to `/authentication` with `returnUrl` and emit `false`; on fetch
error navigate to `/authentication` with no query parameters and emit
`false`. -/
def authGuard (route : String) (authRes : FetchResult OAuthStatus) : GuardRun :=
  match authRes with
  | .ok status =>
    if status.authenticated && !status.expired then
      { returnValue := true, navsBeforeReturn := [], navsAfterReturn := [] }
    else
      { returnValue := false
        navsBeforeReturn := [{ target := "/authentication", returnUrl := some route, requiresScraping := false }]
        navsAfterReturn := [] }
  | .err =>
    { returnValue := false
      navsBeforeReturn := [{ target := "/authentication", returnUrl := none, requiresScraping := false }]
      navsAfterReturn := [] }

/-- `scrapingGuard` (guard module in scraping.component.ts, lines 624-659):
fetch the cookie status; allow when `hasCookies && valid`; otherwise
navigate to `/authentication` with `returnUrl` and `requiresScraping=true`
and emit `false`; on fetch error navigate bare and emit `false`. -/
def scrapingGuard (route : String) (cookieRes : FetchResult CookieStatus) : GuardRun :=
  match cookieRes with
  | .ok status =>
    if status.hasCookies && status.valid then
      { returnValue := true, navsBeforeReturn := [], navsAfterReturn := [] }
    else
      { returnValue := false
        navsBeforeReturn := [{ target := "/authentication", returnUrl := some route, requiresScraping := true }]
        navsAfterReturn := [] }
  | .err =>
    { returnValue := false
      navsBeforeReturn := [{ target := "/authentication", returnUrl := none, requiresScraping := false }]
      navsAfterReturn := [] }

/-- `combinedGuard` (guard module in scraping.component.ts, lines 665-708):
the OAuth status is checked inside `map`; when it is invalid the guard
navigates and emits `false`.  When OAuth is valid the code starts a nested
`getCookieStatus().subscribe` whose `next` callback navigates if the
cookies are invalid — but the outer `map` has already returned `true`, so
that navigation lands in `navsAfterReturn`.  The nested subscription has no
error callback, so a failed cookie fetch produces no navigation at all.
The outer `catchError` only covers the OAuth fetch. -/
def combinedGuard (route : String) (authRes : FetchResult OAuthStatus)
    (cookieRes : FetchResult CookieStatus) : GuardRun :=
  match authRes with
  | .ok authStatus =>
    if !authStatus.authenticated || authStatus.expired then
      { returnValue := false
        navsBeforeReturn := [{ target := "/authentication", returnUrl := some route, requiresScraping := false }]
        navsAfterReturn := [] }
    else
      { returnValue := true
        navsBeforeReturn := []
        navsAfterReturn :=
          match cookieRes with
          | .ok cookieStatus =>
            if !cookieStatus.hasCookies || !cookieStatus.valid then
              [{ target := "/authentication", returnUrl := some route, requiresScraping := true }]
            else []
          | .err => [] }
  | .err =>
    { returnValue := false
      navsBeforeReturn := [{ target := "/authentication", returnUrl := none, requiresScraping := false }]
      navsAfterReturn := [] }

/-- C3: for a `RequiresOAuth` route, an OAuth descriptor with
`authenticated=false` or `expired=true` makes `authGuard` deny (emit
`false`) and redirect to `/authentication` carrying the requested route as
`returnUrl`; a descriptor with `authenticated=true, expired=false` makes it
allow with no navigation. -/
theorem c3_authGuard_decision (route : String) (s : OAuthStatus) :
    (s.authenticated = false ∨ s.expired = true →
      authGuard route (.ok s) =
        { returnValue := false
          navsBeforeReturn := [{ target := "/authentication", returnUrl := some route, requiresScraping := false }]
          navsAfterReturn := [] }) ∧
    (s.authenticated = true ∧ s.expired = false →
      authGuard route (.ok s) =
        { returnValue := true, navsBeforeReturn := [], navsAfterReturn := [] }) := by
  constructor
  · intro h
    rcases h with h | h <;> simp [authGuard, h]
  · rintro ⟨h1, h2⟩
    simp [authGuard, h1, h2]

/-- Witness for C3 at a concrete denied descriptor. -/
theorem c3_authGuard_decision_witness :
    authGuard "/data-fetch" (.ok { authenticated := false, expired := false, hasToken := false }) =
      { returnValue := false
        navsBeforeReturn := [{ target := "/authentication", returnUrl := some "/data-fetch", requiresScraping := false }]
        navsAfterReturn := [] } :=
  (c3_authGuard_decision "/data-fetch"
    { authenticated := false, expired := false, hasToken := false }).1 (Or.inl rfl)

/-- C1 (code evaluated at the failing input): with a valid OAuth descriptor
and an invalid scraping descriptor, `combinedGuard` emits `true` (Allow);
the `/authentication` redirect is only issued by the nested cookie
subscription after the guard's value is fixed, contradicting the claim that
the guard itself returns Deny. -/
theorem c1_combinedGuard_allows_despite_invalid_scraping :
    combinedGuard "/scraping"
      (.ok { authenticated := true, expired := false, hasToken := true })
      (.ok { hasCookies := false, valid := false, lastValidated := none }) =
      { returnValue := true
        navsBeforeReturn := []
        navsAfterReturn := [{ target := "/authentication", returnUrl := some "/scraping", requiresScraping := true }] } := by
  rfl

/-- C2 (code evaluated at the failing input): under the combined policy,
when OAuth is valid and the scraping cookie-status fetch fails with a
network error, the guard emits `true` (Allow) and no redirect at all — the
nested subscription has no error handler — contradicting the claim that
every network failure during an admission check yields Deny. -/
theorem c2_combinedGuard_allows_on_cookie_fetch_error :
    combinedGuard "/scraping"
      (.ok { authenticated := true, expired := false, hasToken := true })
      .err =
      { returnValue := true, navsBeforeReturn := [], navsAfterReturn := [] } := by
  rfl

/-- C10: when the OAuth status fetch fails, `authGuard` emits `false` and
redirects to `/authentication` with no `returnUrl`, whereas an explicit
unauthenticated or expired descriptor produces a redirect carrying
`returnUrl` equal to the requested route. -/
theorem c10_authGuard_error_path_drops_returnUrl (route : String) (s : OAuthStatus) :
    authGuard route .err =
      { returnValue := false
        navsBeforeReturn := [{ target := "/authentication", returnUrl := none, requiresScraping := false }]
        navsAfterReturn := [] } ∧
    (s.authenticated = false ∨ s.expired = true →
      (authGuard route (.ok s)).navsBeforeReturn =
        [{ target := "/authentication", returnUrl := some route, requiresScraping := false }]) := by
  constructor
  · rfl
  · intro h
    rcases h with h | h <;> simp [authGuard, h]

/-- Witness for C10 at a concrete route and expired descriptor. -/
theorem c10_authGuard_error_path_drops_returnUrl_witness :
    (authGuard "/data-view" .err).navsBeforeReturn =
        [{ target := "/authentication", returnUrl := none, requiresScraping := false }] ∧
    (authGuard "/data-view" (.ok { authenticated := true, expired := true, hasToken := true })).navsBeforeReturn =
        [{ target := "/authentication", returnUrl := some "/data-view", requiresScraping := false }] := by
  refine ⟨?_, ?_⟩
  · exact congrArg GuardRun.navsBeforeReturn
      (c10_authGuard_error_path_drops_returnUrl "/data-view"
        { authenticated := true, expired := true, hasToken := true }).1
  · exact (c10_authGuard_error_path_drops_returnUrl "/data-view"
      { authenticated := true, expired := true, hasToken := true }).2 (Or.inr rfl)

/-- The credential form bound to the authentication component
(`scrapingCreds`): email, password and MFA code text fields. -/
structure Creds where
  email : String
  password : String
  mfaCode : String
deriving DecidableEq

/-- The cleared form the success handler assigns. -/
def emptyCreds : Creds := { email := "", password := "", mfaCode := "" }

/-- Mutable state of `AuthenticationComponent`
(data-view.component.ts, lines 423-454): the two cached descriptors, the
pending-MFA flag, the credential form and the loading flag. -/
structure AuthState where
  authStatus : OAuthStatus
  cookieStatus : CookieStatus
  mfaRequired : Bool
  scrapingCreds : Creds
  scrapingLoading : Bool
deriving DecidableEq

/-- The default denied OAuth descriptor the error handlers assign
(`authenticated:false, expired:false, hasToken:false`). -/
def defaultAuthStatus : OAuthStatus :=
  { authenticated := false, expired := false, hasToken := false }

/-- The default denied scraping descriptor the error handlers assign
(`hasCookies:false, valid:false`). -/
def defaultCookieStatus : CookieStatus :=
  { hasCookies := false, valid := false, lastValidated := none }

namespace AuthenticationComponent

/-- `AuthenticationComponent.loadStatus` (data-view.component.ts, lines
545-592): the OAuth subscription stores the fetched descriptor on `next`
and assigns the default denied descriptor on `error`; the cookie
subscription does the same for the scraping descriptor. -/
def loadStatus (s : AuthState) (authRes : FetchResult OAuthStatus)
    (cookieRes : FetchResult CookieStatus) : AuthState :=
  let s1 :=
    match authRes with
    | .ok status => { s with authStatus := status }
    | .err => { s with authStatus := defaultAuthStatus }
  match cookieRes with
  | .ok status => { s1 with cookieStatus := status }
  | .err => { s1 with cookieStatus := defaultCookieStatus }

/-- The two channels through which `POST scrapingAuthenticate` answers a
credential submission: a successful response (whose body may carry
`mfaRequired`), or an error whose payload may carry `mfaRequired`. -/
inductive ScrapingAuthOutcome where
  | success (mfaRequired : Bool) (message : Option String)
  | failure (mfaRequired : Bool) (message : Option String)
deriving DecidableEq

/-- `AuthenticationComponent.authenticateScraping` (data-view.component.ts,
lines 647-722).  Local validation first: empty email or password, or a
pending MFA challenge with an empty code, returns without any remote call.
Otherwise the response is handled: a success carrying `mfaRequired` sets
the pending flag and keeps the form; a plain success clears the flag,
reloads both statuses and clears the form; an error carrying `mfaRequired`
sets the pending flag; any other error only reports a message — the
pending flag is left untouched. -/
def authenticateScraping (s : AuthState) (resp : ScrapingAuthOutcome)
    (authRes : FetchResult OAuthStatus) (cookieRes : FetchResult CookieStatus) :
    AuthState :=
  if s.scrapingCreds.email = "" ∨ s.scrapingCreds.password = "" then s
  else if s.mfaRequired = true ∧ s.scrapingCreds.mfaCode = "" then s
  else
    match resp with
    | .success true _ => { s with mfaRequired := true, scrapingLoading := false }
    | .success false _ =>
      let s1 := loadStatus { s with mfaRequired := false } authRes cookieRes
      { s1 with scrapingCreds := emptyCreds, scrapingLoading := false }
    | .failure true _ => { s with mfaRequired := true, scrapingLoading := false }
    | .failure false _ => { s with scrapingLoading := false }

/-- `AuthenticationComponent.clearCookies` (data-view.component.ts, lines
749-770): on a successful `DELETE scrapingCookies` the pending-MFA flag is
cleared and both statuses reloaded; on error only a message is shown. -/
def clearCookies (s : AuthState) (res : FetchResult Unit)
    (authRes : FetchResult OAuthStatus) (cookieRes : FetchResult CookieStatus) :
    AuthState :=
  match res with
  | .ok _ =>
    let s1 := loadStatus { s with mfaRequired := false } authRes cookieRes
    { s1 with scrapingLoading := false }
  | .err => { s with scrapingLoading := false }

end AuthenticationComponent

namespace ScrapingComponent

/-- The cookie-status half of `ScrapingComponent.loadStatus`
(scraping.component.ts, lines 254-274): `next` stores the fetched
descriptor; `error` assigns the default denied descriptor, discarding the
previous value. -/
def loadStatusCookie (prev : CookieStatus) (cookieRes : FetchResult CookieStatus) :
    CookieStatus :=
  match cookieRes with
  | .ok status => status
  | .err => defaultCookieStatus

end ScrapingComponent

/-- State of one component's 30-second status poller
(`startStatusPolling` in data-view.component.ts lines 499-506 and
scraping.component.ts lines 238-245): whether the `takeUntil(destroy)`
subscription is still active, how many remote status calls from earlier
ticks are still outstanding, and how many calls have been begun in
total. -/
structure PollerState where
  active : Bool
  outstanding : Nat
  began : Nat
deriving DecidableEq

/-- One tick of `interval(30000).pipe(takeUntil(destroy)).subscribe(() =>
loadStatus())`: while active, the handler unconditionally calls
`loadStatus`, which begins two new remote status calls; there is no check
of `outstanding`. -/
def pollTick (s : PollerState) : PollerState :=
  if s.active then
    { s with began := s.began + 2, outstanding := s.outstanding + 2 }
  else s

/-- C6 counterexample: a tick arriving while two calls from the previous
tick are still outstanding is not skipped — the handler begins two further
remote calls, refuting the serialization claim. -/
theorem c6_tick_not_skipped_counterexample :
    ({ active := true, outstanding := 2, began := 2 } : PollerState).outstanding > 0 ∧
    pollTick { active := true, outstanding := 2, began := 2 } ≠
      ({ active := true, outstanding := 2, began := 2 } : PollerState) := by
  constructor
  · decide
  · decide

/-- C6 amended: ticks are not serialized — every tick of an active poller
begins two new remote status calls regardless of how many calls from
earlier ticks are still outstanding. -/
theorem c6_tick_always_begins_calls (s : PollerState) (h : s.active = true) :
    (pollTick s).began = s.began + 2 ∧
    (pollTick s).outstanding = s.outstanding + 2 := by
  simp [pollTick, h]

/-- Witness for C6 amended at a concrete state with outstanding calls. -/
theorem c6_tick_always_begins_calls_witness :
    (pollTick { active := true, outstanding := 2, began := 2 }).began = 4 :=
  (c6_tick_always_begins_calls { active := true, outstanding := 2, began := 2 } rfl).1

/-- C4 counterexample: a background refresh in which both fetches fail does
not leave the previously stored descriptors in place — starting from valid
descriptors, `loadStatus` flips both to the denied defaults. -/
theorem c4_failed_refresh_not_retained_counterexample :
    AuthenticationComponent.loadStatus
      { authStatus := { authenticated := true, expired := false, hasToken := true }
        cookieStatus := { hasCookies := true, valid := true, lastValidated := none }
        mfaRequired := false
        scrapingCreds := emptyCreds
        scrapingLoading := false } .err .err ≠
      { authStatus := { authenticated := true, expired := false, hasToken := true }
        cookieStatus := { hasCookies := true, valid := true, lastValidated := none }
        mfaRequired := false
        scrapingCreds := emptyCreds
        scrapingLoading := false } := by
  decide

/-- C4 amended: a failed background refresh does not retain the previous
descriptor — each error handler resets the affected descriptor to its
default denied value (OAuth `authenticated=false, expired=false,
hasToken=false`; scraping `hasCookies=false, valid=false`), in both the
authentication component and the scraping component; the poller itself is
not stopped by the failure (the tick subscription stays active). -/
theorem c4_failed_refresh_resets_to_denied_default (s : AuthState)
    (prev : CookieStatus) (p : PollerState) :
    (AuthenticationComponent.loadStatus s .err .err).authStatus = defaultAuthStatus ∧
    (AuthenticationComponent.loadStatus s .err .err).cookieStatus = defaultCookieStatus ∧
    ScrapingComponent.loadStatusCookie prev .err = defaultCookieStatus ∧
    (pollTick p).active = p.active := by
  refine ⟨rfl, rfl, rfl, ?_⟩
  by_cases h : p.active = true <;> simp [pollTick, h]

/-- C5 counterexample: with the MFA challenge pending and non-empty form
fields, a failure response that is not MFA-related leaves the pending flag
set — the error branch only shows a message and never clears
`mfaRequired`, refuting the claim that such a failure clears it. -/
theorem c5_nonmfa_failure_leaves_pending_counterexample :
    ¬ ((AuthenticationComponent.authenticateScraping
        { authStatus := defaultAuthStatus
          cookieStatus := defaultCookieStatus
          mfaRequired := true
          scrapingCreds := { email := "user@example.com", password := "pw", mfaCode := "123456" }
          scrapingLoading := false }
        (.failure false (some "Authentication failed")) .err .err).mfaRequired = false) := by
  decide

/-- C5 amended: the pending MFA flag is cleared by a successful non-MFA
submission and by a successful explicit session clear, but a failure that
is not MFA-related leaves the flag unchanged (it stays pending). -/
theorem c5_pending_mfa_clearing (s : AuthState) (m : Option String)
    (authRes : FetchResult OAuthStatus) (cookieRes : FetchResult CookieStatus)
    (hEmail : ¬ s.scrapingCreds.email = "") (hPw : ¬ s.scrapingCreds.password = "")
    (hCode : s.mfaRequired = true → ¬ s.scrapingCreds.mfaCode = "") :
    (AuthenticationComponent.authenticateScraping s (.success false m) authRes cookieRes).mfaRequired = false ∧
    (AuthenticationComponent.clearCookies s (.ok ()) authRes cookieRes).mfaRequired = false ∧
    (AuthenticationComponent.authenticateScraping s (.failure false m) authRes cookieRes).mfaRequired = s.mfaRequired := by
  have hval : ¬ (s.scrapingCreds.email = "" ∨ s.scrapingCreds.password = "") := by
    intro h; rcases h with h | h
    · exact hEmail h
    · exact hPw h
  have hval2 : ¬ (s.mfaRequired = true ∧ s.scrapingCreds.mfaCode = "") := by
    rintro ⟨h1, h2⟩; exact hCode h1 h2
  refine ⟨?_, ?_, ?_⟩
  · simp only [AuthenticationComponent.authenticateScraping, if_neg hval, if_neg hval2]
    cases authRes <;> cases cookieRes <;> rfl
  · simp only [AuthenticationComponent.clearCookies]
    cases authRes <;> cases cookieRes <;> rfl
  · simp only [AuthenticationComponent.authenticateScraping, if_neg hval, if_neg hval2]

/-- Witness for C5 amended at a concrete pending state. -/
theorem c5_pending_mfa_clearing_witness :
    (AuthenticationComponent.authenticateScraping
      { authStatus := defaultAuthStatus
        cookieStatus := defaultCookieStatus
        mfaRequired := true
        scrapingCreds := { email := "user@example.com", password := "pw", mfaCode := "123456" }
        scrapingLoading := false }
      (.failure false (some "Authentication failed")) .err .err).mfaRequired = true :=
  (c5_pending_mfa_clearing
    { authStatus := defaultAuthStatus
      cookieStatus := defaultCookieStatus
      mfaRequired := true
      scrapingCreds := { email := "user@example.com", password := "pw", mfaCode := "123456" }
      scrapingLoading := false }
    (some "Authentication failed") .err .err
    (by decide) (by decide) (fun _ => by decide)).2.2

/-- C7: a credential submission answered with `mfaRequired=true` leaves the
scraping descriptor untouched (the session stays unauthenticated), sets the
pending-MFA flag and keeps the whole form, the email field in particular;
entering an MFA code and submitting again, answered as a plain success with
the cookie refetch reporting a valid session, clears the pending flag,
stores the valid descriptor (Authenticated) and clears all form fields. -/
theorem c7_mfa_round_trip (s : AuthState) (code : String) (m1 m2 : Option String)
    (authRes1 : FetchResult OAuthStatus) (cookieRes1 : FetchResult CookieStatus)
    (authRes2 : FetchResult OAuthStatus) (c2 : CookieStatus)
    (hEmail : ¬ s.scrapingCreds.email = "") (hPw : ¬ s.scrapingCreds.password = "")
    (hMfa : s.mfaRequired = false) (hCode : ¬ code = "") :
    (AuthenticationComponent.authenticateScraping s (.success true m1) authRes1 cookieRes1).cookieStatus = s.cookieStatus ∧
    (AuthenticationComponent.authenticateScraping s (.success true m1) authRes1 cookieRes1).mfaRequired = true ∧
    (AuthenticationComponent.authenticateScraping s (.success true m1) authRes1 cookieRes1).scrapingCreds = s.scrapingCreds ∧
    (let s1 := AuthenticationComponent.authenticateScraping s (.success true m1) authRes1 cookieRes1
     let s2 := { s1 with scrapingCreds := { s1.scrapingCreds with mfaCode := code } }
     let s3 := AuthenticationComponent.authenticateScraping s2 (.success false m2) authRes2 (.ok c2)
     s3.mfaRequired = false ∧ s3.scrapingCreds = emptyCreds ∧ s3.cookieStatus = c2) := by
  have hval : ¬ (s.scrapingCreds.email = "" ∨ s.scrapingCreds.password = "") := by
    intro h; rcases h with h | h
    · exact hEmail h
    · exact hPw h
  have hval2 : ¬ (s.mfaRequired = true ∧ s.scrapingCreds.mfaCode = "") := by
    rintro ⟨h1, _⟩; rw [hMfa] at h1; exact Bool.false_ne_true h1
  have h1 : AuthenticationComponent.authenticateScraping s (.success true m1) authRes1 cookieRes1 =
      { s with mfaRequired := true, scrapingLoading := false } := by
    simp only [AuthenticationComponent.authenticateScraping, if_neg hval, if_neg hval2]
  refine ⟨by rw [h1], by rw [h1], by rw [h1], ?_⟩
  rw [h1]
  cases authRes2 <;>
    simp [AuthenticationComponent.authenticateScraping, AuthenticationComponent.loadStatus,
      hEmail, hPw, hCode]

/-- Witness for C7 at a concrete round trip. -/
theorem c7_mfa_round_trip_witness :
    (let s0 : AuthState :=
      { authStatus := defaultAuthStatus
        cookieStatus := defaultCookieStatus
        mfaRequired := false
        scrapingCreds := { email := "user@example.com", password := "pw", mfaCode := "" }
        scrapingLoading := false }
     let s1 := AuthenticationComponent.authenticateScraping s0 (.success true none) .err .err
     let s2 := { s1 with scrapingCreds := { s1.scrapingCreds with mfaCode := "123456" } }
     let s3 := AuthenticationComponent.authenticateScraping s2 (.success false none) .err
       (.ok { hasCookies := true, valid := true, lastValidated := none })
     s1.mfaRequired = true ∧ s1.scrapingCreds.email = "user@example.com" ∧
       s3.mfaRequired = false ∧ s3.scrapingCreds = emptyCreds ∧ s3.cookieStatus.valid = true) := by
  have h := c7_mfa_round_trip
    { authStatus := defaultAuthStatus
      cookieStatus := defaultCookieStatus
      mfaRequired := false
      scrapingCreds := { email := "user@example.com", password := "pw", mfaCode := "" }
      scrapingLoading := false }
    "123456" none none .err .err .err
    { hasCookies := true, valid := true, lastValidated := none }
    (by decide) (by decide) rfl (by decide)
  refine ⟨h.2.1, ?_, h.2.2.2.1, h.2.2.2.2.1, ?_⟩
  · rw [h.2.2.1]
  · rw [h.2.2.2.2.2]

/-- A browser address: the path part and the query string as an ordered
list of key-value pairs (`URLSearchParams`). -/
structure Url where
  path : String
  query : List (String × String)
deriving DecidableEq

/-- `URLSearchParams.get`: the value of the first pair with the given key,
or null. -/
def getParam (u : Url) (key : String) : Option String :=
  (u.query.find? (fun p => p.fst == key)).map Prod.snd

/-- JavaScript truthiness of a `string | null` query parameter: null and
the empty string are falsy. -/
def truthy : Option String → Bool
  | none => false
  | some s => ! decide (s = "")

/-- The observable result of running an OAuth callback handler: the address
left behind (`history.replaceState`), the snackbar messages shown, the
router navigations issued or scheduled, and whether a status reload was
triggered. -/
structure CallbackRun where
  url : Url
  messages : List String
  navigations : List String
  statusReloaded : Bool
deriving DecidableEq

/-- The run of a handler that found no callback parameters: address
untouched, no message, no navigation, no reload. -/
def noOpRun (u : Url) : CallbackRun :=
  { url := u, messages := [], navigations := [], statusReloaded := false }

/-- The error message built by `AuthenticationComponent.handleOAuthCallback`
from the `error` and truthy-checked `description` parameters. -/
def oauthErrorMessage (e : String) (d : Option String) : String :=
  match d with
  | some dd =>
    if dd = "" then "OAuth error: " ++ e
    else "OAuth error: " ++ e ++ " - " ++ dd
  | none => "OAuth error: " ++ e

namespace AuthenticationComponent

/-- `AuthenticationComponent.handleOAuthCallback` (data-view.component.ts,
lines 511-540): `success === "true"` shows the success message, reloads the
statuses, strips the query from the address and schedules a navigation to
the stored return URL; a truthy `error` shows an error message and strips
the query; otherwise nothing happens. -/
def handleOAuthCallback (returnUrl : String) (u : Url) : CallbackRun :=
  let success := getParam u "success"
  let error := getParam u "error"
  let errorDescription := getParam u "description"
  if success = some "true" then
    { url := { path := u.path, query := [] }
      messages := ["OAuth authentication successful!"]
      navigations := [returnUrl]
      statusReloaded := true }
  else
    match error with
    | some e =>
      if e = "" then noOpRun u
      else
        { url := { path := u.path, query := [] }
          messages := [oauthErrorMessage e errorDescription]
          navigations := []
          statusReloaded := false }
    | none => noOpRun u

end AuthenticationComponent

namespace AppComponent

/-- `AppComponent.handleOAuthCallback` (app.component.ts, lines 150-171):
a truthy `success` rechecks the auth status and replaces the address with
`/data-fetch` (query gone) before navigating there; a truthy `error`
replaces the address with `/authentication` and navigates there; otherwise
nothing happens. -/
def handleOAuthCallback (u : Url) : CallbackRun :=
  let success := getParam u "success"
  let error := getParam u "error"
  if truthy success then
    { url := { path := "/data-fetch", query := [] }
      messages := []
      navigations := ["/data-fetch"]
      statusReloaded := true }
  else if truthy error then
    { url := { path := "/authentication", query := [] }
      messages := []
      navigations := ["/authentication"]
      statusReloaded := false }
  else noOpRun u

end AppComponent

/-- On an address with an empty query, every parameter lookup is null. -/
theorem getParam_clean (path key : String) : getParam { path := path, query := [] } key = none :=
  rfl

/-- A clean address makes the authentication component parser a no-op. -/
theorem authCallback_clean_noop (returnUrl : String) (u : Url) (h : u.query = []) :
    AuthenticationComponent.handleOAuthCallback returnUrl u = noOpRun u := by
  obtain ⟨p, q⟩ := u
  subst h
  rfl

/-- A clean address makes the app component parser a no-op. -/
theorem appCallback_clean_noop (u : Url) (h : u.query = []) :
    AppComponent.handleOAuthCallback u = noOpRun u := by
  obtain ⟨p, q⟩ := u
  subst h
  rfl

/-- C8: both OAuth callback parsers are one-shot and idempotent — on an
address carrying `success=true` or a truthy `error` code, the first
invocation strips the query parameters from the address, and re-invoking
the parser on the now-clean address is a no-op: the address is unchanged
and no message, navigation or status reload is produced. -/
theorem c8_callback_one_shot (returnUrl : String) (u : Url)
    (h : getParam u "success" = some "true" ∨ truthy (getParam u "error") = true) :
    ((AuthenticationComponent.handleOAuthCallback returnUrl u).url.query = [] ∧
      AuthenticationComponent.handleOAuthCallback returnUrl
          (AuthenticationComponent.handleOAuthCallback returnUrl u).url =
        noOpRun (AuthenticationComponent.handleOAuthCallback returnUrl u).url) ∧
    ((AppComponent.handleOAuthCallback u).url.query = [] ∧
      AppComponent.handleOAuthCallback (AppComponent.handleOAuthCallback u).url =
        noOpRun (AppComponent.handleOAuthCallback u).url) := by
  have hauth : (AuthenticationComponent.handleOAuthCallback returnUrl u).url.query = [] := by
    by_cases hs : getParam u "success" = some "true"
    · simp [AuthenticationComponent.handleOAuthCallback, hs]
    · have he : truthy (getParam u "error") = true := h.resolve_left hs
      cases herr : getParam u "error" with
      | none => rw [herr] at he; simp [truthy] at he
      | some e =>
        rw [herr] at he
        have hne : ¬ e = "" := by
          intro h0; rw [h0] at he; simp [truthy] at he
        simp [AuthenticationComponent.handleOAuthCallback, hs, herr, hne]
  have happ : (AppComponent.handleOAuthCallback u).url.query = [] := by
    cases hts : truthy (getParam u "success") with
    | true => simp [AppComponent.handleOAuthCallback, hts]
    | false =>
      have he : truthy (getParam u "error") = true := by
        rcases h with h | h
        · rw [h] at hts; simp [truthy] at hts
        · exact h
      simp [AppComponent.handleOAuthCallback, hts, he]
  exact ⟨⟨hauth, authCallback_clean_noop returnUrl _ hauth⟩,
    ⟨happ, appCallback_clean_noop _ happ⟩⟩

/-- Witness for C8 at the concrete address `/authentication?success=true`. -/
theorem c8_callback_one_shot_witness :
    (AuthenticationComponent.handleOAuthCallback "/data-fetch"
        { path := "/authentication", query := [("success", "true")] }).url.query = [] ∧
    AppComponent.handleOAuthCallback
        (AppComponent.handleOAuthCallback
          { path := "/authentication", query := [("success", "true")] }).url =
      noOpRun (AppComponent.handleOAuthCallback
          { path := "/authentication", query := [("success", "true")] }).url := by
  have h := c8_callback_one_shot "/data-fetch"
    { path := "/authentication", query := [("success", "true")] } (Or.inl (by decide))
  exact ⟨h.1.1, h.2.2⟩

/-- In-memory and durable state of the `CookieService` persistence shim
(src/src/app/services/cookie.service.ts): the current value of the
`BehaviorSubject` and the `airtable_cookies` entry in local storage. -/
structure CookieServiceState where
  subjectValue : Option String
  stored : Option String
deriving DecidableEq

namespace CookieService

/-- `CookieService.clearCookies` (cookie.service.ts, lines 62-65): push
null into the subject and remove the durable copy. -/
def clearCookies (_s : CookieServiceState) : CookieServiceState :=
  { subjectValue := none, stored := none }

/-- `CookieService.getCurrentCookies` (cookie.service.ts, lines 58-60):
the current subject value. -/
def getCurrentCookies (s : CookieServiceState) : Option String :=
  s.subjectValue

/-- The `CookieService` constructor (cookie.service.ts, lines 20-26): the
subject starts at null and, when local storage holds a token, that token is
pushed; this is the `load()` of the persistence shim. -/
def initFromStorage (stored : Option String) : CookieServiceState :=
  match stored with
  | some v => { subjectValue := some v, stored := some v }
  | none => { subjectValue := none, stored := none }

end CookieService

/-- C9: clearing the persistence shim twice yields the same result both
times — after each call the durable copy is removed and the held token is
null (the cleared descriptor: no cookies, not valid) — and loading from
storage afterwards returns null. -/
theorem c9_clear_idempotent (s : CookieServiceState) :
    CookieService.clearCookies s = { subjectValue := none, stored := none } ∧
    CookieService.clearCookies (CookieService.clearCookies s) = CookieService.clearCookies s ∧
    CookieService.getCurrentCookies (CookieService.clearCookies s) = none ∧
    (CookieService.clearCookies s).stored = none ∧
    CookieService.getCurrentCookies
      (CookieService.initFromStorage (CookieService.clearCookies s).stored) = none :=
  ⟨rfl, rfl, rfl, rfl, rfl⟩
